import Mathlib

/-!
Verification of the `keyof` library (src/keyof/keyof.py): a path-capturing
proxy plus an immutable path value (`KeyOf`) supporting replay against
concrete instances, introspection, and serialization.

The Python runtime values that replay navigates are shallowly embedded as
the inductive `PyVal`; exceptions become `Option`/`Except` results.
-/

namespace Keyof

/-- A Python runtime value, as far as `KeyOf.from_` can observe it:
the `None` singleton, strings, integers, lists, tuples, dicts
(string keys: replay always subscripts with a string segment, so a
non-string-keyed entry can never be hit and is not modelled), and
record-like objects carrying a class name and named attributes. -/
inductive PyVal where
  | none : PyVal
  | str : String → PyVal
  | int : Int → PyVal
  | list : List PyVal → PyVal
  | tuple : List PyVal → PyVal
  | dict : List (String × PyVal) → PyVal
  | obj : String → List (String × PyVal) → PyVal

/-- `current is None` test used by the replay loop (keyof.py line 196). -/
def PyVal.isNone : PyVal → Bool
  | .none => true
  | _ => false

/-- `type(v).__name__`, used in replay error messages. -/
def PyVal.typeName : PyVal → String
  | .none => "NoneType"
  | .str _ => "str"
  | .int _ => "int"
  | .list _ => "list"
  | .tuple _ => "tuple"
  | .dict _ => "dict"
  | .obj c _ => c

/-- First-match association-list lookup (Python attribute/key lookup). -/
def alookup : List (String × PyVal) → String → Option PyVal
  | [], _ => Option.none
  | (k, v) :: rest, key => if k = key then some v else alookup rest key

/-- `getattr(current, part)` (keyof.py line 205): succeeds only on a
record-like object that has the named attribute; any other access raises
`AttributeError`, modelled as `Option.none`. -/
def PyVal.getattr : PyVal → String → Option PyVal
  | .obj _ fields, name => alookup fields name
  | _, _ => Option.none

/-- `isinstance(current, (list, tuple, str))` (keyof.py line 210). -/
def isSeqLike : PyVal → Bool
  | .list _ => true
  | .tuple _ => true
  | .str _ => true
  | _ => false

/-- Zero bases of the Unicode decimal-digit decades (general category
`Nd`): every decimal digit character lies in a run `[z, z+9]` for a base
`z` listed here, with digit value equal to its offset from `z`. These
are the characters `str.isdigit` accepts that `int` can also convert.
Extracted from CPython's Unicode database (66 decades, 660 characters;
the first is ASCII `0`-`9`, the second Arabic-Indic `٠`-`٩`). -/
def decimalDecades : List Nat :=
  [48, 1632, 1776, 1984, 2406, 2534, 2662, 2790, 2918, 3046, 3174,
   3302, 3430, 3558, 3664, 3792, 3872, 4160, 4240, 6112, 6160, 6470,
   6608, 6784, 6800, 6992, 7088, 7232, 7248, 42528, 43216, 43264,
   43472, 43504, 43600, 44016, 65296, 66720, 68912, 69734, 69872,
   69942, 70096, 70384, 70736, 70864, 71248, 71360, 71472, 71904,
   72016, 72784, 73040, 73120, 92768, 92864, 93008, 120782, 120792,
   120802, 120812, 120822, 123200, 123632, 125264, 130032]

/-- Inclusive code-point ranges of the characters `str.isdigit` accepts
that are not decimal digits (Unicode `Numeric_Type=Digit`, e.g. the
superscript `²` and the circled digits): `int` raises `ValueError` on
every one of them. Extracted from CPython's Unicode database
(20 ranges, 128 characters). -/
def digitOnlyRanges : List (Nat × Nat) :=
  [(178, 179), (185, 185), (4969, 4977), (6618, 6618), (8304, 8304),
   (8308, 8313), (8320, 8329), (9312, 9320), (9332, 9340),
   (9352, 9360), (9450, 9450), (9461, 9469), (9471, 9471),
   (10102, 10110), (10112, 10120), (10122, 10130), (68160, 68163),
   (69216, 69224), (69714, 69722), (127232, 127242)]

/-- The decimal digit value of a character: `some (c - z)` when `c`
falls in a decimal decade with base `z`, else `Option.none`. -/
def decimalVal (c : Char) : Option Nat :=
  (decimalDecades.find? fun z => z ≤ c.toNat && c.toNat ≤ z + 9).map
    fun z => c.toNat - z

/-- Whether a character counts as a digit for `str.isdigit`: a decimal
digit or a digit-only (non-convertible) character. -/
def isDigitChar (c : Char) : Bool :=
  (decimalVal c).isSome ||
    digitOnlyRanges.any fun r => r.1 ≤ c.toNat && c.toNat ≤ r.2

/-- `part.isdigit()` (keyof.py line 210): nonempty and every character
a Unicode digit (decimal or digit-only). -/
def pyIsDigit (s : String) : Bool :=
  !s.toList.isEmpty && s.toList.all isDigitChar

/-- `int(part)` (keyof.py line 211), on the digit-like segments it is
applied to: succeeds iff every character is a decimal digit, folding
the digit values; `Option.none` models the `ValueError` that `int`
raises on digit-only characters such as `²`. (The sign/space/underscore
forms `int` also parses are never `isdigit`-true, so they cannot reach
this call.) -/
def pyInt (s : String) : Option Nat :=
  if s.toList.isEmpty then Option.none
  else s.toList.foldl
    (fun acc c => acc.bind fun a => (decimalVal c).map fun d => a * 10 + d)
    (some 0)

/-- `current[int(part)]` for a list/tuple/str (keyof.py line 211):
`IndexError` out of range becomes `Option.none`; indexing a string
yields a one-character string. -/
def intIndex : PyVal → Nat → Option PyVal
  | .list xs, i => xs[i]?
  | .tuple xs, i => xs[i]?
  | .str s, i => (s.toList[i]?).map fun c => PyVal.str (String.singleton c)
  | _, _ => Option.none

/-- `current[part]` with the string segment (keyof.py line 215): key
lookup on a dict (`KeyError` → `Option.none`); on every other value the
subscript raises `TypeError` (string index on a sequence, unsubscriptable
object), modelled as `Option.none`. -/
def getItem : PyVal → String → Option PyVal
  | .dict kvs, key => alookup kvs key
  | _, _ => Option.none

/-- Outcome of one item-access attempt inside the fallback block: a
value, an exception the `except (KeyError, IndexError, TypeError)`
clause catches, or an exception it does not catch (which then escapes
`from_` altogether). -/
inductive ItemResult where
  | ok : PyVal → ItemResult
  | caught : ItemResult
  | uncaught : String → ItemResult

/-- `current[int(part)]` (keyof.py line 211): `int(part)` first — its
`ValueError` on a digit-only segment is caught by neither
`except (KeyError, IndexError, TypeError)` nor `except AttributeError`,
so it is `uncaught` (carrying the offending segment) — then indexing,
whose `IndexError` is caught. -/
def seqIndexAccess (current : PyVal) (part : String) : ItemResult :=
  match pyInt part with
  | some n =>
    match intIndex current n with
    | some v => ItemResult.ok v
    | Option.none => ItemResult.caught
  | Option.none => ItemResult.uncaught part

/-- `current[part]` (keyof.py line 215): mapping-key subscription; the
`KeyError`/`TypeError` failures are caught. -/
def keyAccess (current : PyVal) (part : String) : ItemResult :=
  match getItem current part with
  | some v => ItemResult.ok v
  | Option.none => ItemResult.caught

/-- The item-access fallback block (keyof.py lines 208-215): integer
index when the current value is a list/tuple/str and the segment is all
digits, otherwise plain subscription. -/
def itemAccess (current : PyVal) (part : String) : ItemResult :=
  if isSeqLike current && pyIsDigit part then seqIndexAccess current part
  else keyAccess current part

/-- `".".join(parts)`. -/
def dotJoin (parts : List String) : String :=
  String.intercalate "." parts

/-- An exception escaping `KeyOf.from_`: an `AttributeError`, either
"Cannot resolve part on None (reached via resolvedSoFar on objTy)"
(keyof.py lines 199-202) or "Cannot resolve part on curType (path:
resolvedSoFar)" (keyof.py lines 218-220); or the `ValueError` from
`int(part)` at line 211 (carrying the offending segment), which no
`except` clause of `from_` catches. -/
inductive ResolveError where
  | onNone (part : String) (resolvedSoFar : String) (objTy : String) : ResolveError
  | noResolve (part : String) (curType : String) (resolvedSoFar : String) : ResolveError
  | valueError (part : String) : ResolveError
deriving DecidableEq

/-- The body of the `for i, part in enumerate(self._parts)` loop of
`KeyOf.from_` (keyof.py lines 194-222). `done` is the prefix of segments
already consumed (`self._parts[:i]`), `rest` the remaining segments,
`dflt` the default (`Option.none` models the `_MISSING` sentinel),
`objTy` the type name of the original instance. -/
def fromLoop (objTy : String) (dflt : Option PyVal) :
    List String → List String → PyVal → Except ResolveError PyVal
  | _, [], current => Except.ok current
  | done, part :: rest, current =>
    match current.isNone with
    | true =>
      match dflt with
      | Option.none => Except.error (ResolveError.onNone part (dotJoin done) objTy)
      | some d => Except.ok d
    | false =>
      match current.getattr part with
      | some v => fromLoop objTy dflt (done ++ [part]) rest v
      | Option.none =>
        match itemAccess current part with
        | ItemResult.ok v => fromLoop objTy dflt (done ++ [part]) rest v
        | ItemResult.uncaught p => Except.error (ResolveError.valueError p)
        | ItemResult.caught =>
          match dflt with
          | Option.none =>
            Except.error (ResolveError.noResolve part current.typeName (dotJoin done))
          | some d => Except.ok d

/-- The path-capturing proxy `_PathProxy` (keyof.py lines 64-86):
an immutable tuple of recorded segments. -/
structure PathProxy where
  _parts : List String
deriving DecidableEq

/-- Whether a character list begins with two underscores. -/
def twoUnderscores : List Char → Bool
  | '_' :: '_' :: _ => true
  | _ => false

/-- A dunder-style name: `name.startswith("__") and name.endswith("__")`
(keyof.py line 78), computed on the character list (ends-with is
starts-with on the reversed list). -/
def isDunder (name : String) : Bool :=
  twoUnderscores name.toList && twoUnderscores name.toList.reverse

/-- `_PathProxy.__getattr__` (keyof.py lines 77-80): raises
`AttributeError` (modelled `Option.none`) on dunder-style names,
otherwise a fresh proxy with the name appended. -/
def PathProxy.getattrP (p : PathProxy) (name : String) : Option PathProxy :=
  if isDunder name then Option.none
  else some ⟨p._parts ++ [name]⟩

/-- `_PathProxy.__getitem__` (keyof.py lines 82-83): always succeeds,
appending the stringified key. -/
def PathProxy.getitemP (p : PathProxy) (key : String) : PathProxy :=
  ⟨p._parts ++ [key]⟩

/-- What a selector returns to `KeyOf.__init__`: either the proxy it
navigated to, or some plain (non-proxy) Python value. -/
inductive SelResult where
  | proxy : PathProxy → SelResult
  | value : PyVal → SelResult

/-- The immutable path value `KeyOf` (keyof.py lines 119-393). -/
structure KeyOf where
  _parts : List String
deriving DecidableEq

/-- `KeyOf.__init__` (keyof.py lines 156-163): run the selector on a
fresh root proxy; `TypeError` if the result is not a `_PathProxy`,
otherwise keep the returned proxy's parts. -/
def KeyOf.construct (selector : PathProxy → SelResult) : Except String KeyOf :=
  match selector ⟨[]⟩ with
  | SelResult.proxy p => Except.ok ⟨p._parts⟩
  | SelResult.value _ => Except.error
      "KeyOf selector must return a property access chain, not a plain value."

/-- `KeyOf.from_` (keyof.py lines 176-222). `dflt = Option.none` models
the omitted-default call (`_MISSING`); `some d` models an explicitly
supplied default `d`, including an explicit Python `None`
(`some PyVal.none`). -/
def KeyOf.from_ (k : KeyOf) (obj : PyVal) (dflt : Option PyVal) :
    Except ResolveError PyVal :=
  fromLoop obj.typeName dflt [] k._parts obj

/-- `KeyOf.depth` (keyof.py lines 233-236). -/
def KeyOf.depth (k : KeyOf) : Nat :=
  k._parts.length

/-- `KeyOf.leaf` = `self._parts[-1]` (keyof.py lines 238-241);
`IndexError` on an empty path becomes `Option.none`. -/
def KeyOf.leaf (k : KeyOf) : Option String :=
  k._parts.getLast?

/-- `KeyOf.root` = `self._parts[0]` (keyof.py lines 243-246);
`IndexError` on an empty path becomes `Option.none`. -/
def KeyOf.root (k : KeyOf) : Option String :=
  k._parts.head?

/-- `KeyOf.parent` (keyof.py lines 248-261): `ValueError` when fewer
than two segments, otherwise a new `KeyOf` over `self._parts[:-1]`. -/
def KeyOf.parent (k : KeyOf) : Except String KeyOf :=
  if k._parts.length < 2 then Except.error "Path has no parent (depth=1)."
  else Except.ok ⟨k._parts.dropLast⟩

/-- `KeyOf.to_dot` (keyof.py lines 267-269). -/
def KeyOf.to_dot (k : KeyOf) : String :=
  dotJoin k._parts

/-- `KeyOf.to_bracket` (keyof.py lines 282-284). -/
def KeyOf.to_bracket (k : KeyOf) : String :=
  String.join (k._parts.map fun p => "['" ++ p ++ "']")

/-- `KeyOf.to_jsonpath` (keyof.py lines 290-292). -/
def KeyOf.to_jsonpath (k : KeyOf) : String :=
  "$." ++ dotJoin k._parts

/-- The right-hand operand of `KeyOf.__eq__` (keyof.py lines 364-369):
another `KeyOf`, a plain string, or any other Python value. -/
inductive PyComparand where
  | keyof : KeyOf → PyComparand
  | strv : String → PyComparand
  | other : PyVal → PyComparand

/-- `KeyOf.__eq__` under Python `==` semantics (keyof.py lines 364-369):
parts comparison against a `KeyOf`, dot-rendering comparison against a
string; for any other type `__eq__` returns `NotImplemented`, which the
interpreter degrades to not-equal (the other operand does not know
`KeyOf`). -/
def KeyOf.eqPy (k : KeyOf) : PyComparand → Bool
  | PyComparand.keyof k2 => decide (k._parts = k2._parts)
  | PyComparand.strv s => decide (k.to_dot = s)
  | PyComparand.other _ => false

/-- `KeyOf.__hash__` = `hash(self._parts)` (keyof.py lines 361-362):
a pure function of the segment tuple. -/
def KeyOf.hashPy (k : KeyOf) : UInt64 :=
  hash k._parts

/-- The `{address: {city: "London"}}`-shaped instance of spec Scenario 1. -/
def userObj : PyVal :=
  PyVal.obj "User" [("address", PyVal.obj "Address" [("city", PyVal.str "London")])]

/-- The selector `lambda u: u.address.city`: two successive proxy
attribute accesses (neither name is dunder-style, so each access
succeeds; the error arms model a propagating `AttributeError`). -/
def sel1 (u : PathProxy) : SelResult :=
  match u.getattrP "address" with
  | some a =>
    match a.getattrP "city" with
    | some c => SelResult.proxy c
    | Option.none => SelResult.value PyVal.none
  | Option.none => SelResult.value PyVal.none

/-- C1: the path built by the selector accessing `address` then `city`
has parts `["address", "city"]`; replayed over a
`{address: {city: "London"}}`-shaped object it yields `"London"`;
`to_dot` renders `"address.city"`, `to_bracket` renders
`"['address']['city']"`, and `to_jsonpath` renders `"$.address.city"`. -/
theorem scenario_address_city :
    KeyOf.construct sel1 = Except.ok ⟨["address", "city"]⟩ ∧
    KeyOf.from_ ⟨["address", "city"]⟩ userObj Option.none =
      Except.ok (PyVal.str "London") ∧
    KeyOf.to_dot ⟨["address", "city"]⟩ = "address.city" ∧
    KeyOf.to_bracket ⟨["address", "city"]⟩ = "['address']['city']" ∧
    KeyOf.to_jsonpath ⟨["address", "city"]⟩ = "$.address.city" := by
  refine ⟨rfl, rfl, ?_, ?_, ?_⟩ <;> decide

/-- C4: when the current value is `None` with a segment still to
consume, replay without a default fails with an error carrying that
segment and the dot-joined already-resolved prefix, while replay with a
default returns the default immediately, whatever segments remain. -/
theorem none_mid_path_behavior (part : String) (rest done : List String)
    (objTy : String) (d : PyVal) :
    fromLoop objTy Option.none done (part :: rest) PyVal.none =
      Except.error (ResolveError.onNone part (dotJoin done) objTy) ∧
    fromLoop objTy (some d) done (part :: rest) PyVal.none = Except.ok d :=
  ⟨rfl, rfl⟩

/-- The with-default run refines the no-default run on successes: a
path that resolves fully without a default resolves to the same value
with one (a successful run never consults the default). -/
theorem fromLoop_none_to_some_ok (objTy : String) (d : PyVal) :
    ∀ (rest done : List String) (cur : PyVal) (v : PyVal),
      fromLoop objTy Option.none done rest cur = Except.ok v →
      fromLoop objTy (some d) done rest cur = Except.ok v := by
  intro rest
  induction rest with
  | nil => exact fun done cur v h => h
  | cons part rest ih =>
    intro done cur v h
    cases hn : cur.isNone with
    | true =>
      simp only [fromLoop, hn] at h
      exact Except.noConfusion h
    | false =>
      cases hg : cur.getattr part with
      | some w =>
        simp only [fromLoop, hn, hg] at h ⊢
        exact ih (done ++ [part]) w v h
      | none =>
        cases hi : itemAccess cur part with
        | ok w =>
          simp only [fromLoop, hn, hg, hi] at h ⊢
          exact ih (done ++ [part]) w v h
        | caught =>
          simp only [fromLoop, hn, hg, hi] at h
          exact Except.noConfusion h
        | uncaught p =>
          simp only [fromLoop, hn, hg, hi] at h
          exact Except.noConfusion h

/-- C2: at every segment with a non-`None` current value, replay first
attempts attribute lookup and continues with its result when it
succeeds; only when attribute lookup fails does it use item access,
which is the integer-index attempt `current[int(part)]` exactly when
the current value is a list/tuple/str and the segment is all digits,
and plain (mapping-key) subscription otherwise. -/
theorem step_resolution_order (cur : PyVal) (part : String)
    (hn : cur.isNone = false) :
    (∀ (objTy : String) (dflt : Option PyVal) (done rest : List String)
        (v : PyVal), cur.getattr part = some v →
       fromLoop objTy dflt done (part :: rest) cur =
         fromLoop objTy dflt (done ++ [part]) rest v) ∧
    (∀ (objTy : String) (dflt : Option PyVal) (done rest : List String)
        (v : PyVal), cur.getattr part = Option.none →
       itemAccess cur part = ItemResult.ok v →
       fromLoop objTy dflt done (part :: rest) cur =
         fromLoop objTy dflt (done ++ [part]) rest v) ∧
    (isSeqLike cur = true → pyIsDigit part = true →
       itemAccess cur part = seqIndexAccess cur part) ∧
    (isSeqLike cur = false ∨ pyIsDigit part = false →
       itemAccess cur part = keyAccess cur part) := by
  refine ⟨?_, ?_, ?_, ?_⟩
  · intro objTy dflt done rest v hg
    simp only [fromLoop, hn, hg]
  · intro objTy dflt done rest v hg hi
    simp only [fromLoop, hn, hg, hi]
  · intro hs hd
    simp [itemAccess, hs, hd]
  · intro h
    rcases h with h | h <;> simp [itemAccess, h]

/-- Witness for C2: on a dict `{"a": 7}`, attribute lookup of `"a"`
fails and item access resolves it as a mapping key, so the loop
continues on the value `7`. -/
theorem step_resolution_order_app :
    fromLoop "T" Option.none [] ["a"] (PyVal.dict [("a", PyVal.int 7)]) =
      fromLoop "T" Option.none ["a"] [] (PyVal.int 7) :=
  (step_resolution_order (PyVal.dict [("a", PyVal.int 7)]) "a" rfl).2.1 "T"
    Option.none [] [] (PyVal.int 7) rfl rfl

/-- C3 (refuted: the code evaluated at the failing input): the segment
`²` is `isdigit`-true, so on the list `[1, 2]` the fallback runs
`current[int('²')]`; `int` raises `ValueError`, which no `except`
clause of `from_` catches, so the call raises even though the default
`"N/A"` was supplied, instead of returning it. -/
theorem from_default_uncaught_valueerror :
    KeyOf.from_ ⟨["²"]⟩ (PyVal.list [PyVal.int 1, PyVal.int 2])
      (some (PyVal.str "N/A")) =
      Except.error (ResolveError.valueError "²") := rfl

/-- C5: construction fails with the literal-value `TypeError` whenever
the selector returns a non-proxy value, and otherwise produces a path
whose segments are exactly the returned proxy's accumulated segments. -/
theorem construct_spec (sel : PathProxy → SelResult) :
    (∀ v, sel ⟨[]⟩ = SelResult.value v →
      KeyOf.construct sel = Except.error
        "KeyOf selector must return a property access chain, not a plain value.") ∧
    (∀ p, sel ⟨[]⟩ = SelResult.proxy p →
      KeyOf.construct sel = Except.ok ⟨p._parts⟩) := by
  constructor
  · intro v h
    simp only [KeyOf.construct, h]
  · intro p h
    simp only [KeyOf.construct, h]

/-- Witness for C5: the selector `lambda x: "x"` (a string literal) is
rejected by construction. -/
theorem construct_spec_app :
    KeyOf.construct (fun _ => SelResult.value (PyVal.str "x")) =
      Except.error
        "KeyOf selector must return a property access chain, not a plain value." :=
  (construct_spec (fun _ => SelResult.value (PyVal.str "x"))).1
    (PyVal.str "x") rfl

/-- C6: proxy attribute access fails (raises `AttributeError`) exactly
on dunder-style names, and on every other name returns a new proxy
whose segments are the original's with the name appended (the original
proxy itself is an immutable value and is not changed). -/
theorem proxy_getattr_spec (p : PathProxy) (name : String) :
    (isDunder name = true → p.getattrP name = Option.none) ∧
    (isDunder name = false →
      p.getattrP name = some ⟨p._parts ++ [name]⟩) := by
  constructor <;> intro h <;> simp [PathProxy.getattrP, h]

/-- Witness for C6: accessing `city` on a proxy that has recorded
`address` yields the proxy for `address.city`. -/
theorem proxy_getattr_spec_app :
    PathProxy.getattrP ⟨["address"]⟩ "city" = some ⟨["address", "city"]⟩ :=
  (proxy_getattr_spec ⟨["address"]⟩ "city").2 rfl

/-- C7: `parent` on a path of depth at least 2 drops the last segment;
on a path of depth 0 or 1 it fails with `ValueError`. -/
theorem parent_spec (k : KeyOf) :
    (2 ≤ k.depth → k.parent = Except.ok ⟨k._parts.dropLast⟩) ∧
    (k.depth < 2 →
      k.parent = Except.error "Path has no parent (depth=1).") := by
  constructor
  · intro h
    have h2 : ¬ k._parts.length < 2 := by
      simp only [KeyOf.depth] at h
      omega
    simp [KeyOf.parent, h2]
  · intro h
    have h2 : k._parts.length < 2 := by
      simpa only [KeyOf.depth] using h
    simp [KeyOf.parent, h2]

/-- Witness for C7: the parent of `a.b` is `a`. -/
theorem parent_spec_app :
    KeyOf.parent ⟨["a", "b"]⟩ = Except.ok ⟨["a"]⟩ :=
  (parent_spec ⟨["a", "b"]⟩).1 (by decide)

/-- C8: equality with another path holds iff the segment lists are
equal, equality with a string holds iff the string is the dot
rendering, equality with any other value is false, and paths with equal
segments have equal hashes. -/
theorem eq_hash_spec (k1 k2 : KeyOf) (s : String) (v : PyVal) :
    (k1.eqPy (PyComparand.keyof k2) = true ↔ k1._parts = k2._parts) ∧
    (k1.eqPy (PyComparand.strv s) = true ↔ s = k1.to_dot) ∧
    k1.eqPy (PyComparand.other v) = false ∧
    (k1._parts = k2._parts → k1.hashPy = k2.hashPy) := by
  refine ⟨?_, ?_, rfl, ?_⟩
  · simp [KeyOf.eqPy]
  · simp [KeyOf.eqPy, eq_comm]
  · intro h
    simp [KeyOf.hashPy, h]

/-- Witness for C8: two structurally equal one-segment paths hash
identically. -/
theorem eq_hash_spec_app :
    KeyOf.hashPy ⟨["a"]⟩ = KeyOf.hashPy ⟨["a"]⟩ :=
  (eq_hash_spec ⟨["a"]⟩ ⟨["a"]⟩ "a" PyVal.none).2.2.2 rfl

/-- C10: when the no-default replay succeeds with final value `None`,
the with-default replay also returns `None`, not the supplied default:
the default only substitutes for a `None` met before a remaining
segment or for a resolution failure, never for a `None` result. -/
theorem final_none_kept (k : KeyOf) (obj d : PyVal)
    (h : k.from_ obj Option.none = Except.ok PyVal.none) :
    k.from_ obj (some d) = Except.ok PyVal.none :=
  fromLoop_none_to_some_ok obj.typeName d k._parts [] obj PyVal.none h

/-- Witness for C10: replaying `a` over `{"a": None}` with default
`"x"` returns `None`, not `"x"`. -/
theorem final_none_kept_app :
    KeyOf.from_ ⟨["a"]⟩ (PyVal.dict [("a", PyVal.none)])
      (some (PyVal.str "x")) = Except.ok PyVal.none :=
  final_none_kept ⟨["a"]⟩ (PyVal.dict [("a", PyVal.none)])
    (PyVal.str "x") rfl

/-- C9: the identity path (zero segments) replays to the input itself
with or without a default, renders to the empty dot string, and has no
root, no leaf, and no parent. -/
theorem identity_path_spec (obj : PyVal) (dflt : Option PyVal) :
    KeyOf.from_ ⟨[]⟩ obj dflt = Except.ok obj ∧
    KeyOf.to_dot ⟨[]⟩ = "" ∧
    KeyOf.root ⟨[]⟩ = Option.none ∧
    KeyOf.leaf ⟨[]⟩ = Option.none ∧
    KeyOf.parent ⟨[]⟩ = Except.error "Path has no parent (depth=1)." :=
  ⟨rfl, rfl, rfl, rfl, rfl⟩

end Keyof
